import Mathlib

/-!
Shallow embedding of the authentication core of the `lc-opd-daily` python API
(`app/core/security.py`, `app/utils/rate_limit.py`, `app/core/permissions.py`,
`app/api/auth_deps.py`, `app/api/endpoints/auth.py`), together with theorems
settling the specification claims about it.

Machine conventions: timestamps are integers (seconds); a JWT is modelled as
its decoded payload paired with the key that signed it (signature check =
key equality); Python dicts over string keys are association lists with
Python `dict.update` semantics.
-/

namespace LcOpd

/-- A JSON-ish value as it occurs in token payloads: strings, integer
timestamps, and `null` (Python `None`). -/
inductive JValue where
  | str : String → JValue
  | num : Int → JValue
  | null : JValue
deriving DecidableEq, Repr

/-- A token payload: a Python dict from string keys to values, as an
association list (keys unique in every dict the code builds). -/
abbrev Payload := List (String × JValue)

/-- Python `d[k]` / `d.get(k)`: first binding of `k`, if any. -/
def lookupKey (p : Payload) (k : String) : Option JValue :=
  (p.find? (fun kv => kv.1 == k)).map (·.2)

/-- Python `d[k] = v`: replace the binding of `k` if present, else append. -/
def dictSet (p : Payload) (k : String) (v : JValue) : Payload :=
  if p.any (fun kv => kv.1 == k) then
    p.map (fun kv => if kv.1 = k then (k, v) else kv)
  else
    p ++ [(k, v)]

/-- Python `base.update(extra)`: fold `dictSet` over the entries of `extra`.
Entries of `extra` override entries of `base` with the same key. -/
def dictUpdate (base extra : Payload) : Payload :=
  extra.foldl (fun acc kv => dictSet acc kv.1 kv.2) base

/-- The configuration fields of `app/core/config.py` that the token layer
reads (`SECRET_KEY`, `ACCESS_TOKEN_EXPIRE_MINUTES`, `REFRESH_TOKEN_EXPIRE_DAYS`). -/
structure Settings where
  SECRET_KEY : String
  ACCESS_TOKEN_EXPIRE_MINUTES : Int
  REFRESH_TOKEN_EXPIRE_DAYS : Int
deriving DecidableEq, Repr

/-- An encoded JWT (`jose.jwt.encode(payload, key, algorithm)`): the payload
together with the signing key; the signature over the payload is modelled by
remembering the key, so a signature check is a key comparison. -/
structure Jwt where
  payload : Payload
  sigKey : String
deriving DecidableEq, Repr

/-- The `jose` exceptions relevant here, all subclasses of `JWTError`:
a signature mismatch, an expired `exp` claim (`ExpiredSignatureError`),
and a malformed claim (`JWTClaimsError`, e.g. a non-integer `exp`). -/
inductive JWTErr where
  | signatureError
  | expiredError
  | claimsError
deriving DecidableEq, Repr

/-- `jose.jwt.encode`: sign `payload` with `key`. -/
def jwtEncode (payload : Payload) (key : String) : Jwt := ⟨payload, key⟩

/-- `jose.jwt.decode(token, key, algorithms=[ALGORITHM])`: verify the
signature, then validate the `exp` claim when present (`ExpiredSignatureError`
when `exp < now`, with zero leeway; absent `exp` is not checked), and return
the payload. -/
def jwtDecode (t : Jwt) (key : String) (now : Int) : Except JWTErr Payload :=
  if t.sigKey ≠ key then .error .signatureError
  else
    match lookupKey t.payload "exp" with
    | some (.num e) => if e < now then .error .expiredError else .ok t.payload
    | some _ => .error .claimsError
    | none => .ok t.payload

/-- `security.create_access_token`: payload `{exp, sub, type: "access", iat}`
then `to_encode.update(extra_data)` when `extra_data` is given (so entries of
`extra_data` override the base fields), signed with `settings.SECRET_KEY`.
`expires_delta` is in seconds here; `None` means the
`ACCESS_TOKEN_EXPIRE_MINUTES` default. -/
def create_access_token (S : Settings) (now : Int) (subject : String)
    (expires_delta : Option Int) (extra_data : Option Payload) : Jwt :=
  let expire : Int :=
    match expires_delta with
    | some d => now + d
    | none => now + S.ACCESS_TOKEN_EXPIRE_MINUTES * 60
  let base : Payload :=
    [("exp", .num expire), ("sub", .str subject), ("type", .str "access"), ("iat", .num now)]
  let to_encode :=
    match extra_data with
    | some e => dictUpdate base e
    | none => base
  jwtEncode to_encode S.SECRET_KEY

/-- `security.create_refresh_token`: same envelope with `type: "refresh"` and
the `REFRESH_TOKEN_EXPIRE_DAYS` default. -/
def create_refresh_token (S : Settings) (now : Int) (subject : String)
    (expires_delta : Option Int) (extra_data : Option Payload) : Jwt :=
  let expire : Int :=
    match expires_delta with
    | some d => now + d
    | none => now + S.REFRESH_TOKEN_EXPIRE_DAYS * 86400
  let base : Payload :=
    [("exp", .num expire), ("sub", .str subject), ("type", .str "refresh"), ("iat", .num now)]
  let to_encode :=
    match extra_data with
    | some e => dictUpdate base e
    | none => base
  jwtEncode to_encode S.SECRET_KEY

/-- `security.verify_refresh_token`: decode (catching every `JWTError` as
`None`), reject when `payload.get("type") != "refresh"`, then return
`payload.get("sub")` (the string subject, `None` when absent). -/
def verify_refresh_token (S : Settings) (now : Int) (token : Jwt) : Option String :=
  match jwtDecode token S.SECRET_KEY now with
  | .error _ => none
  | .ok payload =>
    match lookupKey payload "type" with
    | some (.str "refresh") =>
      match lookupKey payload "sub" with
      | some (.str s) => some s
      | _ => none
    | _ => none

/-- `security.decode_access_token`: decode (catching every `JWTError` as
`None`); reject only when a `type` claim is present and differs from
`"access"`; otherwise return the whole payload. -/
def decode_access_token (S : Settings) (now : Int) (token : Jwt) : Option Payload :=
  match jwtDecode token S.SECRET_KEY now with
  | .error _ => none
  | .ok payload =>
    match lookupKey payload "type" with
    | some v => if v ≠ .str "access" then none else some payload
    | none => some payload

/-! ## Rate limiter (`app/utils/rate_limit.py`) -/

/-- The state of `rate_limit.RateLimiter`: configuration, the per-key
timestamp cache (`defaultdict(list)` as an association list; an absent key
reads as `[]`), the last cleanup time, and the cleanup interval (600 s). -/
structure RateLimiter where
  max_calls : Nat
  time_frame : Int
  cache : List (String × List Int)
  last_cleanup : Int
  cleanup_interval : Int
deriving DecidableEq, Repr

/-- Reading `self._cache[key]` from a `defaultdict(list)`: the stored list,
or `[]` when the key is absent. -/
def cacheGet (c : List (String × List Int)) (k : String) : List Int :=
  ((c.find? (fun kv => kv.1 == k)).map (·.2)).getD []

/-- `self._cache[key] = v`: replace the binding if present, else append it. -/
def cacheSet (c : List (String × List Int)) (k : String) (v : List Int) :
    List (String × List Int) :=
  if c.any (fun kv => kv.1 == k) then
    c.map (fun kv => if kv.1 = k then (k, v) else kv)
  else
    c ++ [(k, v)]

/-- `RateLimiter.__init__(max_calls, time_frame)` at construction time `now`:
empty cache, `_last_cleanup = now`, `_cleanup_interval = 600`. -/
def RateLimiter.init (max_calls : Nat) (time_frame : Int) (now : Int) : RateLimiter :=
  ⟨max_calls, time_frame, [], now, 600⟩

/-- `RateLimiter._cleanup(now)`: prune every key's list to the trailing
window, delete keys whose pruned list is empty, set `_last_cleanup = now`. -/
def RateLimiter.cleanup (rl : RateLimiter) (now : Int) : RateLimiter :=
  let pruned := rl.cache.map
    (fun kv => (kv.1, kv.2.filter (fun ts => decide (now - ts ≤ rl.time_frame))))
  { rl with
    cache := pruned.filter (fun kv => !kv.2.isEmpty)
    last_cleanup := now }

/-- `RateLimiter.check(key)` at time `now`: run `_cleanup` when overdue,
prune the key's timestamps to the trailing window (writing the pruned list
back), reject without appending when the pruned count has reached
`max_calls`, else record `now` and admit. Returns the decision and the new
state. -/
def RateLimiter.check (rl : RateLimiter) (key : String) (now : Int) :
    Bool × RateLimiter :=
  let rl1 := if now - rl.last_cleanup > rl.cleanup_interval then rl.cleanup now else rl
  let ts := (cacheGet rl1.cache key).filter (fun t => decide (now - t ≤ rl1.time_frame))
  if ts.length ≥ rl1.max_calls then
    (false, { rl1 with cache := cacheSet rl1.cache key ts })
  else
    (true, { rl1 with cache := cacheSet rl1.cache key (ts ++ [now]) })

/-- A sequence of `check` calls for one key at the given times, collecting
the decisions left to right. -/
def RateLimiter.runChecks (rl : RateLimiter) (key : String) (times : List Int) :
    RateLimiter × List Bool :=
  times.foldl
    (fun s t =>
      let r := s.1.check key t
      (r.2, s.2 ++ [r.1]))
    (rl, [])

/-! ## Permissions (`app/core/permissions.py`, `app/api/auth_deps.py`) -/

/-- The `Permission` enum of `app/core/permissions.py`. -/
inductive Permission where
  | MANAGE_USERS | VIEW_USERS
  | MANAGE_BRANCHES | VIEW_BRANCHES
  | CREATE_REPORTS | EDIT_REPORTS | DELETE_REPORTS | VIEW_REPORTS
  | APPROVE_REPORTS | EDIT_OWN_REPORTS | DELETE_OWN_REPORTS
  | ADD_COMMENTS | EDIT_COMMENTS | DELETE_COMMENTS
  | EDIT_OWN_COMMENTS | DELETE_OWN_COMMENTS
deriving DecidableEq, Repr

/-- Python `Permission(s)` on a string: the matching member, or a
`ValueError` (here `none`) when no member has that value. -/
def Permission.fromString : String → Option Permission
  | "manage_users" => some .MANAGE_USERS
  | "view_users" => some .VIEW_USERS
  | "manage_branches" => some .MANAGE_BRANCHES
  | "view_branches" => some .VIEW_BRANCHES
  | "create_reports" => some .CREATE_REPORTS
  | "edit_reports" => some .EDIT_REPORTS
  | "delete_reports" => some .DELETE_REPORTS
  | "view_reports" => some .VIEW_REPORTS
  | "approve_reports" => some .APPROVE_REPORTS
  | "edit_own_reports" => some .EDIT_OWN_REPORTS
  | "delete_own_reports" => some .DELETE_OWN_REPORTS
  | "add_comments" => some .ADD_COMMENTS
  | "edit_comments" => some .EDIT_COMMENTS
  | "delete_comments" => some .DELETE_COMMENTS
  | "edit_own_comments" => some .EDIT_OWN_COMMENTS
  | "delete_own_comments" => some .DELETE_OWN_COMMENTS
  | _ => none

/-- The `UserRole` enum (`admin`, `manager`, `user`, `readonly`). -/
inductive Role where
  | ADMIN | BRANCH_MANAGER | USER | READONLY
deriving DecidableEq, Repr

/-- Python `UserRole(s)` on a string: the matching member, or a `ValueError`
(here `none`). -/
def Role.fromString : String → Option Role
  | "admin" => some .ADMIN
  | "manager" => some .BRANCH_MANAGER
  | "user" => some .USER
  | "readonly" => some .READONLY
  | _ => none

/-- The `ROLE_PERMISSIONS` table; total over the closed `UserRole` enum, as
the source dict has an entry for each member. -/
def ROLE_PERMISSIONS : Role → List Permission
  | .ADMIN =>
    [.MANAGE_USERS, .VIEW_USERS, .MANAGE_BRANCHES, .VIEW_BRANCHES,
     .CREATE_REPORTS, .EDIT_REPORTS, .DELETE_REPORTS, .VIEW_REPORTS,
     .APPROVE_REPORTS, .EDIT_OWN_REPORTS, .DELETE_OWN_REPORTS,
     .ADD_COMMENTS, .EDIT_COMMENTS, .DELETE_COMMENTS,
     .EDIT_OWN_COMMENTS, .DELETE_OWN_COMMENTS]
  | .BRANCH_MANAGER =>
    [.VIEW_USERS, .VIEW_BRANCHES, .CREATE_REPORTS, .EDIT_REPORTS,
     .VIEW_REPORTS, .APPROVE_REPORTS, .EDIT_OWN_REPORTS, .DELETE_OWN_REPORTS,
     .ADD_COMMENTS, .EDIT_COMMENTS, .DELETE_COMMENTS,
     .EDIT_OWN_COMMENTS, .DELETE_OWN_COMMENTS]
  | .USER =>
    [.VIEW_BRANCHES, .CREATE_REPORTS, .VIEW_REPORTS,
     .EDIT_OWN_REPORTS, .DELETE_OWN_REPORTS,
     .ADD_COMMENTS, .EDIT_OWN_COMMENTS, .DELETE_OWN_COMMENTS]
  | .READONLY =>
    [.VIEW_BRANCHES, .VIEW_REPORTS, .ADD_COMMENTS,
     .EDIT_OWN_COMMENTS, .DELETE_OWN_COMMENTS]

/-- `permissions.check_permission` on string arguments: coerce the role (a
`ValueError` is caught and yields `False`), coerce the permission likewise,
then membership in the role's permission set. -/
def check_permission (role permission : String) : Bool :=
  match Role.fromString role with
  | none => false
  | some r =>
    match Permission.fromString permission with
    | none => false
    | some p => (ROLE_PERMISSIONS r).contains p

/-- `permissions.get_role_permissions` on a string argument: the role's
permission set, or the empty set when the string is not a `UserRole` value. -/
def get_role_permissions (role : String) : List Permission :=
  match Role.fromString role with
  | none => []
  | some r => ROLE_PERMISSIONS r

/-! ## Data model (`app/db/models/user.py`, `app/db/models/refresh_token.py`) -/

/-- The `User` row fields the authentication core reads or writes. -/
structure User where
  id : String
  email : String
  name : String
  username : String
  password : String
  role : String
  branchId : Option String
  isActive : Bool
  failedLoginAttempts : Int
  lockedUntil : Option Int
deriving DecidableEq, Repr

/-- A `RefreshToken` row: opaque token (here the `Jwt` it deserialises to),
owning user, expiry, creation time, revocation flag. -/
structure RefreshTokenRecord where
  id : String
  userId : String
  token : Jwt
  expiresAt : Int
  createdAt : Int
  isRevoked : Bool
deriving DecidableEq, Repr

/-- The slice of the data store the authentication core touches. -/
structure Db where
  users : List User
  refreshTokens : List RefreshTokenRecord
deriving DecidableEq, Repr

/-! ## User service operations

`app/services/user_service.py` is not part of the sources given; only its
callers are. The operations below are modelled from the spec (§4.2, §4.4,
§6) and from how `app/api/endpoints/auth.py` consumes them. -/

/-- Model of the external one-way password hash primitive (`bcrypt` via
`passlib`): a deterministic tag of the plaintext, satisfying the spec's
hash-and-verify contract. -/
def get_password_hash (password : String) : String := "bcrypt$" ++ password

/-- `security.verify_password`: the stored hash verifies against exactly the
plaintexts hashing to it. -/
def verify_password (plain hashed : String) : Bool := hashed == get_password_hash plain

/-- Modelled from the spec: `user_service` lookup used by
`authenticate_user`; §4.2 requires that the identifier "may be a username or
an email; lookup must try both". -/
def lookup_user (db : Db) (username_or_email : String) : Option User :=
  db.users.find? (fun u => u.username == username_or_email || u.email == username_or_email)

/-- Modelled from the spec: `user_service.authenticate_user` is absent from
the sources. Per §4.2 and its call site in `auth.py`: look the identity up by
username or email, verify the secret against the stored hash, and collapse
`NOT_FOUND` and `BAD_SECRET` to `None` (the caller distinguishes only `None`
vs a user, then checks `is_active` itself). -/
def authenticate_user (db : Db) (username_or_email password : String) : Option User :=
  match lookup_user db username_or_email with
  | none => none
  | some u => if verify_password password u.password then some u else none

/-- Modelled from the spec: `user_service.is_active`, read by the login flow
as the `INACTIVE` test on an authenticated identity. -/
def is_active (u : User) : Bool := u.isActive

/-- Modelled from the spec: `user_service.store_refresh_token` persists a
fresh, non-revoked record (opaque id, owner, expiry, creation time) for the
issued refresh token (§4.4 `store`). -/
def store_refresh_token (db : Db) (user_id : String) (token : Jwt)
    (expiresAt now : Int) : Db :=
  { db with
    refreshTokens := db.refreshTokens ++
      [⟨"rt-" ++ toString db.refreshTokens.length, user_id, token, expiresAt, now, false⟩] }

/-- Modelled from the spec: `user_service.validate_refresh_token` (§4.4
`validate`) checks existence, non-revocation, and non-expiry of a stored
record matching both the identity id and the token. -/
def validate_refresh_token (db : Db) (user_id : String) (token : Jwt) (now : Int) : Bool :=
  db.refreshTokens.any
    (fun r => r.userId == user_id && r.token == token && !r.isRevoked && decide (now < r.expiresAt))

/-- Modelled from the spec: `user_service.invalidate_all_refresh_tokens`
(§4.4 `revoke_all`): flag every record owned by the identity as revoked,
deleting nothing. -/
def invalidate_all_refresh_tokens (db : Db) (user_id : String) : Db :=
  { db with
    refreshTokens := db.refreshTokens.map
      (fun r => if r.userId == user_id then { r with isRevoked := true } else r) }

/-- Modelled from the spec: `user_service.get_user_by_id`, the identity
re-fetch of the refresh flow. -/
def get_user_by_id (db : Db) (user_id : String) : Option User :=
  db.users.find? (fun u => u.id == user_id)

/-! ## Auth endpoints (`app/api/endpoints/auth.py`) -/

/-- A raised `fastapi.HTTPException`, reduced to its externally observable
status code and detail message. -/
structure HTTPError where
  status : Nat
  detail : String
deriving DecidableEq, Repr

/-- The `TokenSchema` response body of the login and refresh endpoints. -/
structure TokenResponse where
  access_token : Jwt
  refresh_token : Jwt
  token_type : String
  expires_at : Int
deriving DecidableEq, Repr

/-- Python `None`-able string to payload value. -/
def jStrOpt : Option String → JValue
  | some s => .str s
  | none => .null

/-- The `token_data` dict both login and refresh embed into new tokens:
`{"role": user.role, "name": user.name, "branchId": user.branchId}`. -/
def userTokenData (u : User) : Payload :=
  [("role", .str u.role), ("name", .str u.name), ("branchId", jStrOpt u.branchId)]

/-- `_authenticate_and_create_tokens` with the result of the
`user_service.authenticate_user` call abstracted into the argument
`authResult` (the service itself is not among the sources): rate-limit by
client key, branch on the authentication result and the active flag, mint
both tokens, then best-effort persist the refresh record — `storeOk = false`
is the `store_refresh_token` call raising, which the endpoint catches and
ignores (`# Continue anyway`). Returns the outcome, the rate-limiter state,
and the store state. -/
def loginWithAuthResult (S : Settings) (rl : RateLimiter) (client_ip : String)
    (db : Db) (authResult : Option User) (now : Int) (storeOk : Bool) :
    Except HTTPError TokenResponse × RateLimiter × Db :=
  let c := rl.check client_ip now
  if !c.1 then
    (.error ⟨429, "Too many login attempts. Please try again later."⟩, c.2, db)
  else
    match authResult with
    | none => (.error ⟨401, "Incorrect username or password"⟩, c.2, db)
    | some user =>
      if !(is_active user) then
        (.error ⟨400, "Inactive user"⟩, c.2, db)
      else
        let accessDelta := S.ACCESS_TOKEN_EXPIRE_MINUTES * 60
        let refreshDelta := S.REFRESH_TOKEN_EXPIRE_DAYS * 86400
        let access := create_access_token S now user.id (some accessDelta) (some (userTokenData user))
        let refresh := create_refresh_token S now user.id (some refreshDelta) (some (userTokenData user))
        let db1 := if storeOk then store_refresh_token db user.id refresh (now + refreshDelta) now else db
        (.ok ⟨access, refresh, "bearer", now + accessDelta⟩, c.2, db1)

/-- The full `_authenticate_and_create_tokens`: the abstract authentication
result instantiated with the spec-modelled `authenticate_user`. -/
def authenticateAndCreateTokens (S : Settings) (rl : RateLimiter) (client_ip : String)
    (db : Db) (username password : String) (now : Int) (storeOk : Bool) :
    Except HTTPError TokenResponse × RateLimiter × Db :=
  loginWithAuthResult S rl client_ip db (authenticate_user db username password) now storeOk

/-- The `/auth/refresh` endpoint `refresh_access_token`: require a token,
verify signature/expiry/kind (`verify_refresh_token`), check the stored
record is present and unrevoked (`validate_refresh_token`), re-fetch the
identity, and mint a new access token returned alongside the same refresh
token. -/
def refresh_access_token (S : Settings) (db : Db) (refresh_token : Option Jwt)
    (now : Int) : Except HTTPError TokenResponse :=
  match refresh_token with
  | none => .error ⟨400, "Refresh token is required"⟩
  | some rt =>
    match verify_refresh_token S now rt with
    | none => .error ⟨401, "Invalid or expired refresh token"⟩
    | some user_id =>
      if !(validate_refresh_token db user_id rt now) then
        .error ⟨401, "Refresh token has been revoked"⟩
      else
        match get_user_by_id db user_id with
        | none => .error ⟨401, "User not found"⟩
        | some user =>
          let accessDelta := S.ACCESS_TOKEN_EXPIRE_MINUTES * 60
          .ok ⟨create_access_token S now user_id (some accessDelta) (some (userTokenData user)),
               rt, "bearer", now + accessDelta⟩

/-- The `/auth/logout` endpoint: revoke every refresh record of the
authenticated user and confirm; the store state is returned alongside the
fixed success body. -/
def logout (db : Db) (current_user : User) : (String × String) × Db :=
  (("Successfully logged out", "success"), invalidate_all_refresh_tokens db current_user.id)

/-! ## Role and branch gates (`app/api/auth_deps.py`) -/

/-- The observable outcome of `RoleDependency.__call__`: the user passed
through, a 403 `HTTPException`, or an uncaught `ValueError` escaping from
`UserRole(current_user.role)`. -/
inductive RoleGateResult where
  | ok (u : User)
  | forbidden (detail : String)
  | valueError (badRole : String)
deriving DecidableEq, Repr

/-- `RoleDependency.__call__`: coerce `current_user.role` with
`UserRole(...)` — which raises `ValueError` on an unrecognized string, with
no handler in scope — then 403 unless the coerced role is among the required
roles. -/
def roleDependencyCall (required_roles : List Role) (current_user : User) : RoleGateResult :=
  match Role.fromString current_user.role with
  | none => .valueError current_user.role
  | some r =>
    if required_roles.contains r then .ok current_user
    else .forbidden "Insufficient role."

/-- `BranchAccessDependency.__call__`: admins pass outright; a missing (or
empty, hence falsy) branch-id path parameter passes without any branch
lookup; otherwise membership in the user's assigned branches
(`branch_service.get_user_branches`, supplied here as `user_branch_ids`) or
direct ownership (`current_user.branchId`) is required. -/
def branchAccessCall (current_user : User) (path_branch_id : Option String)
    (user_branch_ids : List String) : Except HTTPError User :=
  if current_user.role == "admin" then .ok current_user
  else
    match path_branch_id with
    | none => .ok current_user
    | some bid =>
      if bid == "" then .ok current_user
      else if !(user_branch_ids.contains bid) && current_user.branchId ≠ some bid then
        .error ⟨403, "You don\x27t have access to this branch"⟩
      else .ok current_user

/-! ## Association-list lemmas for the dict model -/

theorem find?_map_replace (p : Payload) (k : String) (v : JValue) :
    (p.map (fun kv => if kv.1 = k then (k, v) else kv)).find? (fun kv => kv.1 == k)
      = if p.any (fun kv => kv.1 == k) then some (k, v) else none := by
  induction p with
  | nil => rfl
  | cons x rest ih =>
    by_cases hx : x.1 = k
    · simp [hx, List.find?_cons, ih, -List.find?_map]
    · have hxb : (x.1 == k) = false := by simpa using hx
      simp only [List.map_cons, if_neg hx, List.find?_cons, hxb, List.any_cons,
        Bool.false_or]
      exact ih

theorem find?_map_replace_other (p : Payload) (k : String) (v : JValue) (k' : String)
    (hne : k' ≠ k) :
    (p.map (fun kv => if kv.1 = k then (k, v) else kv)).find? (fun kv => kv.1 == k')
      = p.find? (fun kv => kv.1 == k') := by
  induction p with
  | nil => rfl
  | cons x rest ih =>
    by_cases hx : x.1 = k
    · have hkk' : ((k : String) == k') = false := by
        simp only [beq_eq_false_iff_ne]
        exact fun hc => hne hc.symm
      simp [hx, List.find?_cons, hkk', ih, -List.find?_map]
    · by_cases hx' : x.1 = k'
      · simp [hx, hx', hne, List.find?_cons, -List.find?_map]
      · simp [hx, hx', List.find?_cons, ih, -List.find?_map]

theorem lookupKey_dictSet_self (p : Payload) (k : String) (v : JValue) :
    lookupKey (dictSet p k v) k = some v := by
  unfold lookupKey dictSet
  by_cases hany : p.any (fun kv => kv.1 == k) = true
  · rw [if_pos hany, find?_map_replace, if_pos hany]
    rfl
  · rw [if_neg hany, List.find?_append]
    have h1 : p.find? (fun kv => kv.1 == k) = none := by
      rw [List.find?_eq_none]
      intro x hx hpx
      exact hany (List.any_eq_true.mpr ⟨x, hx, hpx⟩)
    rw [h1]
    simp

theorem lookupKey_dictSet_other (p : Payload) (k : String) (v : JValue) (k' : String)
    (hne : k' ≠ k) :
    lookupKey (dictSet p k v) k' = lookupKey p k' := by
  unfold lookupKey dictSet
  by_cases hany : p.any (fun kv => kv.1 == k) = true
  · rw [if_pos hany, find?_map_replace_other p k v k' hne]
  · rw [if_neg hany, List.find?_append]
    have h2 : List.find? (fun kv => kv.1 == k') [(k, v)] = none := by
      rw [List.find?_eq_none]
      intro x hx hpx
      have hxkv : x = (k, v) := by simpa using hx
      rw [hxkv] at hpx
      have : k = k' := by simpa using hpx
      exact hne this.symm
    rw [h2, Option.or_none]

theorem lookupKey_dictUpdate_notin (extra base : Payload) (k : String)
    (hk : k ∉ extra.map Prod.fst) :
    lookupKey (dictUpdate base extra) k = lookupKey base k := by
  induction extra generalizing base with
  | nil => rfl
  | cons kv rest ih =>
    simp only [List.map_cons, List.mem_cons, not_or] at hk
    have : dictUpdate base (kv :: rest) = dictUpdate (dictSet base kv.1 kv.2) rest := rfl
    rw [this, ih (dictSet base kv.1 kv.2) hk.2, lookupKey_dictSet_other _ _ _ _ hk.1]

theorem lookupKey_dictUpdate_mem (extra base : Payload) (kv : String × JValue)
    (hnodup : (extra.map Prod.fst).Nodup) (hmem : kv ∈ extra) :
    lookupKey (dictUpdate base extra) kv.1 = some kv.2 := by
  induction extra generalizing base with
  | nil => cases hmem
  | cons hd rest ih =>
    have hstep : dictUpdate base (hd :: rest) = dictUpdate (dictSet base hd.1 hd.2) rest := rfl
    simp only [List.map_cons, List.nodup_cons] at hnodup
    rcases List.mem_cons.mp hmem with heq | hrest
    · subst heq
      rw [hstep, lookupKey_dictUpdate_notin rest _ kv.1 hnodup.1]
      exact lookupKey_dictSet_self _ _ _
    · rw [hstep]
      exact ih (dictSet base hd.1 hd.2) hnodup.2 hrest

/-! ## Demo constants used by counterexamples and witnesses -/

/-- A concrete configuration used by closed counterexamples and witnesses. -/
def cSettings : Settings := ⟨"secret-key", 30, 7⟩

/-- C2 counterexample input: a claim bag carrying a `type` entry, which
`to_encode.update(extra_data)` lets override the kind tag. -/
def cexClaims : Payload := [("type", JValue.str "refresh")]

/-- C2 counterexample.
The claim quantifies over every claim bag; for the claim bag
`{"type": "refresh"}`, `create_access_token` lets `extra_data` override the
kind tag (`to_encode.update(extra_data)`), so verifying the token as an
access token immediately after issuance, with an unexpired ttl of 3600
seconds, fails instead of returning the subject and claims. -/
theorem issue_verify_round_trip_cex :
    decode_access_token cSettings 0
      (create_access_token cSettings 0 "u1" (some 3600) (some cexClaims)) = none := by
  decide

/-- C2 (amended): for every subject and every claim bag whose keys are
duplicate-free and avoid the reserved envelope fields `exp`, `sub`, `type`,
`iat`, verifying a token immediately after issuance with the matching kind
succeeds: the access round trip returns a payload with the original subject,
the `access` kind tag, and every caller claim unchanged; the refresh token
verifies to the original subject, and its decoded payload carries the
original subject and claims unchanged (`verify_refresh_token` itself
surfaces only the subject). -/
theorem issue_verify_round_trip (S : Settings) (now : Int) (subject : String)
    (d : Int) (extra : Payload)
    (hd : 0 < d)
    (hnodup : (extra.map Prod.fst).Nodup)
    (hres : ∀ k ∈ extra.map Prod.fst, k ≠ "exp" ∧ k ≠ "sub" ∧ k ≠ "type" ∧ k ≠ "iat") :
    (∃ p, decode_access_token S now (create_access_token S now subject (some d) (some extra)) = some p
       ∧ lookupKey p "sub" = some (.str subject)
       ∧ lookupKey p "type" = some (.str "access")
       ∧ ∀ kv ∈ extra, lookupKey p kv.1 = some kv.2)
    ∧ verify_refresh_token S now (create_refresh_token S now subject (some d) (some extra)) = some subject
    ∧ ∃ q, jwtDecode (create_refresh_token S now subject (some d) (some extra)) S.SECRET_KEY now = .ok q
        ∧ lookupKey q "sub" = some (.str subject)
        ∧ ∀ kv ∈ extra, lookupKey q kv.1 = some kv.2 := by
  have hexp : "exp" ∉ extra.map Prod.fst := fun h => (hres _ h).1 rfl
  have hsub : "sub" ∉ extra.map Prod.fst := fun h => (hres _ h).2.1 rfl
  have htype : "type" ∉ extra.map Prod.fst := fun h => (hres _ h).2.2.1 rfl
  have hnotexp : ¬ (now + d < now) := by omega
  have hAtok : create_access_token S now subject (some d) (some extra)
      = ⟨dictUpdate [("exp", .num (now + d)), ("sub", .str subject),
          ("type", .str "access"), ("iat", .num now)] extra, S.SECRET_KEY⟩ := rfl
  have hRtok : create_refresh_token S now subject (some d) (some extra)
      = ⟨dictUpdate [("exp", .num (now + d)), ("sub", .str subject),
          ("type", .str "refresh"), ("iat", .num now)] extra, S.SECRET_KEY⟩ := rfl
  have hAexp : lookupKey (dictUpdate [("exp", .num (now + d)), ("sub", .str subject),
      ("type", .str "access"), ("iat", .num now)] extra) "exp" = some (.num (now + d)) := by
    rw [lookupKey_dictUpdate_notin extra _ "exp" hexp]; rfl
  have hAsub : lookupKey (dictUpdate [("exp", .num (now + d)), ("sub", .str subject),
      ("type", .str "access"), ("iat", .num now)] extra) "sub" = some (.str subject) := by
    rw [lookupKey_dictUpdate_notin extra _ "sub" hsub]; rfl
  have hAtype : lookupKey (dictUpdate [("exp", .num (now + d)), ("sub", .str subject),
      ("type", .str "access"), ("iat", .num now)] extra) "type" = some (.str "access") := by
    rw [lookupKey_dictUpdate_notin extra _ "type" htype]; rfl
  have hRexp : lookupKey (dictUpdate [("exp", .num (now + d)), ("sub", .str subject),
      ("type", .str "refresh"), ("iat", .num now)] extra) "exp" = some (.num (now + d)) := by
    rw [lookupKey_dictUpdate_notin extra _ "exp" hexp]; rfl
  have hRsub : lookupKey (dictUpdate [("exp", .num (now + d)), ("sub", .str subject),
      ("type", .str "refresh"), ("iat", .num now)] extra) "sub" = some (.str subject) := by
    rw [lookupKey_dictUpdate_notin extra _ "sub" hsub]; rfl
  have hRtype : lookupKey (dictUpdate [("exp", .num (now + d)), ("sub", .str subject),
      ("type", .str "refresh"), ("iat", .num now)] extra) "type" = some (.str "refresh") := by
    rw [lookupKey_dictUpdate_notin extra _ "type" htype]; rfl
  have hAdec : jwtDecode (create_access_token S now subject (some d) (some extra))
      S.SECRET_KEY now = .ok (dictUpdate [("exp", .num (now + d)), ("sub", .str subject),
        ("type", .str "access"), ("iat", .num now)] extra) := by
    rw [hAtok]
    unfold jwtDecode
    rw [if_neg (fun h => h rfl)]
    simp only [hAexp, hnotexp, if_false]
  have hRdec : jwtDecode (create_refresh_token S now subject (some d) (some extra))
      S.SECRET_KEY now = .ok (dictUpdate [("exp", .num (now + d)), ("sub", .str subject),
        ("type", .str "refresh"), ("iat", .num now)] extra) := by
    rw [hRtok]
    unfold jwtDecode
    rw [if_neg (fun h => h rfl)]
    simp only [hRexp, hnotexp, if_false]
  refine ⟨⟨_, ?_, hAsub, hAtype, ?_⟩, ?_, ⟨_, hRdec, hRsub, ?_⟩⟩
  · unfold decode_access_token
    rw [hAdec]
    simp only [hAtype]
    rw [if_neg (by simp)]
  · intro kv hkv
    exact lookupKey_dictUpdate_mem extra _ kv hnodup hkv
  · unfold verify_refresh_token
    rw [hRdec]
    simp only [hRtype, hRsub]
  · intro kv hkv
    exact lookupKey_dictUpdate_mem extra _ kv hnodup hkv

/-- C2 witness: the amended round trip at a concrete input — the subject
`u1` and the claim bag the login flow actually embeds. -/
theorem issue_verify_round_trip_witness :
    verify_refresh_token cSettings 0
      (create_refresh_token cSettings 0 "u1" (some 3600)
        (some [("role", JValue.str "user"), ("name", JValue.str "Alice"),
               ("branchId", JValue.null)])) = some "u1" :=
  (issue_verify_round_trip cSettings 0 "u1" 3600
    [("role", JValue.str "user"), ("name", JValue.str "Alice"), ("branchId", JValue.null)]
    (by decide) (by decide) (by decide)).2.1

/-- C3 counterexample.
A correctly signed token whose expiry has passed and a wrongly signed token
produce the same outcome from `decode_access_token` (both `None`): the
expired case is not a distinct `EXPIRED` outcome, and the three failure
kinds are not mutually distinguishable at the verification interface. -/
theorem verify_failure_outcomes_cex :
    decode_access_token cSettings 100
      (jwtEncode [("exp", JValue.num 10), ("sub", JValue.str "u1"),
        ("type", JValue.str "access")] "secret-key") = none
    ∧ decode_access_token cSettings 100
        (jwtEncode [("exp", JValue.num 1000), ("sub", JValue.str "u1"),
          ("type", JValue.str "access")] "wrong-key") = none
    ∧ decode_access_token cSettings 100
        (jwtEncode [("exp", JValue.num 10), ("sub", JValue.str "u1"),
          ("type", JValue.str "access")] "secret-key")
      = decode_access_token cSettings 100
          (jwtEncode [("exp", JValue.num 1000), ("sub", JValue.str "u1"),
            ("type", JValue.str "access")] "wrong-key") := by
  decide

/-- C3 (amended): inside the decode layer, a correctly signed token whose
expiry has passed fails with the expiry error, never a signature error, and
a wrongly signed token fails with the signature error; but the source
verification functions (`decode_access_token`, `verify_refresh_token`)
collapse signature mismatch, expiry, and wrong kind into the single `None`
outcome, so the three failure kinds are not externally distinguishable. -/
theorem verify_failure_outcomes (S : Settings) (now e : Int) (p : Payload) (key2 : String)
    (hexp : lookupKey p "exp" = some (.num e)) (hlt : e < now)
    (hkey : key2 ≠ S.SECRET_KEY) :
    jwtDecode (jwtEncode p S.SECRET_KEY) S.SECRET_KEY now = .error .expiredError
    ∧ jwtDecode (jwtEncode p key2) S.SECRET_KEY now = .error .signatureError
    ∧ decode_access_token S now (jwtEncode p S.SECRET_KEY) = none
    ∧ decode_access_token S now (jwtEncode p key2) = none
    ∧ verify_refresh_token S now (jwtEncode p S.SECRET_KEY) = none
    ∧ verify_refresh_token S now (jwtEncode p key2) = none
    ∧ (∀ q e2, lookupKey q "exp" = some (.num e2) → ¬ e2 < now →
        lookupKey q "type" = some (.str "refresh") →
        decode_access_token S now (jwtEncode q S.SECRET_KEY) = none)
    ∧ (∀ q e2, lookupKey q "exp" = some (.num e2) → ¬ e2 < now →
        lookupKey q "type" = some (.str "access") →
        verify_refresh_token S now (jwtEncode q S.SECRET_KEY) = none) := by
  have hdexp : jwtDecode (jwtEncode p S.SECRET_KEY) S.SECRET_KEY now = .error .expiredError := by
    unfold jwtDecode jwtEncode
    rw [if_neg (fun h => h rfl)]
    simp only [hexp]
    rw [if_pos hlt]
  have hdsig : jwtDecode (jwtEncode p key2) S.SECRET_KEY now = .error .signatureError := by
    unfold jwtDecode jwtEncode
    rw [if_pos hkey]
  refine ⟨hdexp, hdsig, ?_, ?_, ?_, ?_, ?_, ?_⟩
  · unfold decode_access_token
    rw [hdexp]
  · unfold decode_access_token
    rw [hdsig]
  · unfold verify_refresh_token
    rw [hdexp]
  · unfold verify_refresh_token
    rw [hdsig]
  · intro q e2 hq hnlt hty
    have hdq : jwtDecode (jwtEncode q S.SECRET_KEY) S.SECRET_KEY now = .ok q := by
      unfold jwtDecode jwtEncode
      rw [if_neg (fun h => h rfl)]
      simp only [hq]
      rw [if_neg hnlt]
    unfold decode_access_token
    rw [hdq]
    simp only [hty]
    rw [if_pos (by simp)]
  · intro q e2 hq hnlt hty
    have hdq : jwtDecode (jwtEncode q S.SECRET_KEY) S.SECRET_KEY now = .ok q := by
      unfold jwtDecode jwtEncode
      rw [if_neg (fun h => h rfl)]
      simp only [hq]
      rw [if_neg hnlt]
    unfold verify_refresh_token
    rw [hdq]
    simp only [hty]
    rfl

/-- C3 witness: the amended statement at a concrete expired token and a
concrete wrongly signed token. -/
theorem verify_failure_outcomes_witness :
    jwtDecode (jwtEncode [("exp", JValue.num 10)] cSettings.SECRET_KEY)
      cSettings.SECRET_KEY 100 = .error .expiredError
    ∧ jwtDecode (jwtEncode [("exp", JValue.num 10)] "wrong-key")
        cSettings.SECRET_KEY 100 = .error .signatureError :=
  ⟨(verify_failure_outcomes cSettings 100 10 [("exp", JValue.num 10)] "wrong-key"
      (by decide) (by decide) (by decide)).1,
   (verify_failure_outcomes cSettings 100 10 [("exp", JValue.num 10)] "wrong-key"
      (by decide) (by decide) (by decide)).2.1⟩

/-- C9: `decode_access_token` accepts a correctly signed, unexpired token
whose payload has no `type` field at all, returning its payload; the kind
check rejects only a payload whose `type` field is present and differs from
`"access"`. -/
theorem decode_access_missing_type (S : Settings) (now : Int) (p : Payload)
    (hok : jwtDecode (jwtEncode p S.SECRET_KEY) S.SECRET_KEY now = .ok p) :
    (lookupKey p "type" = none →
      decode_access_token S now (jwtEncode p S.SECRET_KEY) = some p)
    ∧ (∀ v, lookupKey p "type" = some v → v ≠ .str "access" →
        decode_access_token S now (jwtEncode p S.SECRET_KEY) = none)
    ∧ (lookupKey p "type" = some (.str "access") →
        decode_access_token S now (jwtEncode p S.SECRET_KEY) = some p) := by
  refine ⟨?_, ?_, ?_⟩
  · intro hty
    unfold decode_access_token
    rw [hok]
    simp only [hty]
  · intro v hty hne
    unfold decode_access_token
    rw [hok]
    simp only [hty]
    rw [if_pos hne]
  · intro hty
    unfold decode_access_token
    rw [hok]
    simp only [hty]
    rw [if_neg (by simp)]

/-- C9 witness: a concrete signed, unexpired token with no `type` field is
accepted by `decode_access_token`. -/
theorem decode_access_missing_type_witness :
    decode_access_token cSettings 0
      (jwtEncode [("sub", JValue.str "u1"), ("exp", JValue.num 100)] cSettings.SECRET_KEY)
      = some [("sub", JValue.str "u1"), ("exp", JValue.num 100)] :=
  (decode_access_missing_type cSettings 0
    [("sub", JValue.str "u1"), ("exp", JValue.num 100)] rfl).1 (by decide)

/-- A concrete user whose role string is not a `UserRole` member. -/
def unknownRoleUser : User :=
  ⟨"u9", "u9@example.com", "Unknown Role", "unknownrole", "h", "superuser",
    none, true, 0, none⟩

/-- C8 counterexample.
The claim says every role/permission evaluation returns false or the empty
set for an unrecognized value and never raises; but `RoleDependency.__call__`
runs `UserRole(current_user.role)` unguarded, so for the unrecognized role
string `superuser` the role gate raises `ValueError` instead of denying. -/
theorem role_gate_unknown_role_cex :
    roleDependencyCall [Role.ADMIN] unknownRoleUser
      = RoleGateResult.valueError "superuser" := rfl

/-- C8 (amended): `check_permission` and `get_role_permissions` return
`false` / the empty set on every unrecognized role or permission string and
never raise; the role gate (`RoleDependency.__call__`), by contrast, raises
`ValueError` on an unrecognized role string instead of returning a denial. -/
theorem unknown_role_permission_no_crash :
    (∀ role perm, Role.fromString role = none →
      check_permission role perm = false
      ∧ get_role_permissions role = []
      ∧ ∀ req (u : User), u.role = role →
          roleDependencyCall req u = RoleGateResult.valueError role)
    ∧ (∀ role perm, Permission.fromString perm = none →
        check_permission role perm = false) := by
  constructor
  · intro role perm hr
    refine ⟨?_, ?_, ?_⟩
    · unfold check_permission
      rw [hr]
    · unfold get_role_permissions
      rw [hr]
    · intro req u hu
      unfold roleDependencyCall
      rw [hu, hr]
  · intro role perm hp
    unfold check_permission
    cases hr : Role.fromString role with
    | none => rfl
    | some r => rw [hp]

/-- C8 witness: the amended behavior at the concrete unrecognized role
`superuser` and the concrete unrecognized permission `fly`. -/
theorem unknown_role_permission_no_crash_witness :
    check_permission "superuser" "view_users" = false
    ∧ get_role_permissions "superuser" = []
    ∧ roleDependencyCall [Role.ADMIN] unknownRoleUser
        = RoleGateResult.valueError "superuser"
    ∧ check_permission "admin" "fly" = false :=
  ⟨(unknown_role_permission_no_crash.1 "superuser" "view_users" rfl).1,
   (unknown_role_permission_no_crash.1 "superuser" "view_users" rfl).2.1,
   (unknown_role_permission_no_crash.1 "superuser" "view_users" rfl).2.2
     [Role.ADMIN] unknownRoleUser rfl,
   unknown_role_permission_no_crash.2 "admin" "fly" rfl⟩

/-- C10: for a non-admin user, the branch gate grants access whenever no
branch-id path parameter is present, identically for every possible set of
branch assignments (so none is consulted); with a branch id present, a
non-admin neither assigned to it nor owning it is rejected with 403. -/
theorem branch_gate_no_branch_param (u : User) (hadm : u.role ≠ "admin") :
    (∀ ub : List String, branchAccessCall u none ub = .ok u)
    ∧ (∀ ub ub' : List String, branchAccessCall u none ub = branchAccessCall u none ub')
    ∧ (∀ (bid : String) (ub : List String), bid ≠ "" →
        ub.contains bid = false → u.branchId ≠ some bid →
        branchAccessCall u (some bid) ub
          = .error ⟨403, "You don\x27t have access to this branch"⟩) := by
  have hadmb : (u.role == "admin") = false := by
    simpa using hadm
  refine ⟨?_, ?_, ?_⟩
  · intro ub
    unfold branchAccessCall
    rw [hadmb]
    rfl
  · intro ub ub'
    unfold branchAccessCall
    rw [hadmb]
  · intro bid ub hbid hmem hown
    have hbidb : (bid == "") = false := by simpa using hbid
    unfold branchAccessCall
    rw [hadmb]
    simp only [hbidb, hmem]
    rw [if_neg (by simp), if_neg (by simp), if_pos (by simp [hown])]

/-- C10 witness: a concrete non-admin user passes the gate with no branch
parameter and is rejected for an unassigned branch. -/
theorem branch_gate_no_branch_param_witness :
    branchAccessCall ⟨"u2", "b@example.com", "Bob", "bob", "h", "user",
        some "B1", true, 0, none⟩ none ["B1"]
      = .ok ⟨"u2", "b@example.com", "Bob", "bob", "h", "user",
        some "B1", true, 0, none⟩
    ∧ branchAccessCall ⟨"u2", "b@example.com", "Bob", "bob", "h", "user",
        some "B1", true, 0, none⟩ (some "B2") ["B1"]
      = .error ⟨403, "You don\x27t have access to this branch"⟩ :=
  ⟨(branch_gate_no_branch_param _ (by decide)).1 ["B1"],
   (branch_gate_no_branch_param _ (by decide)).2.2 "B2" ["B1"]
     (by decide) (by decide) (by decide)⟩

/-- C1: logout revokes every refresh record owned by the identity (leaving
other identities' records untouched), after which `validate` of any token
for that identity returns false, and a refresh request presenting any such
token whose own signature and expiry still verify fails with the
revoked-token error. -/
theorem logout_revokes_all (S : Settings) (db : Db) (u : User) :
    (∀ r ∈ (logout db u).2.refreshTokens, r.userId = u.id → r.isRevoked = true)
    ∧ (∀ r ∈ db.refreshTokens, r.userId ≠ u.id → r ∈ (logout db u).2.refreshTokens)
    ∧ (∀ (tok : Jwt) (now : Int),
        validate_refresh_token (logout db u).2 u.id tok now = false)
    ∧ (∀ (tok : Jwt) (now : Int), verify_refresh_token S now tok = some u.id →
        refresh_access_token S (logout db u).2 (some tok) now
          = .error ⟨401, "Refresh token has been revoked"⟩) := by
  have hmap : (logout db u).2.refreshTokens
      = db.refreshTokens.map
          (fun r => if r.userId == u.id then { r with isRevoked := true } else r) := rfl
  have h1 : ∀ r ∈ (logout db u).2.refreshTokens, r.userId = u.id → r.isRevoked = true := by
    intro r hr hid
    rw [hmap] at hr
    rcases List.mem_map.mp hr with ⟨r0, hr0, hfr⟩
    by_cases h : r0.userId = u.id
    · rw [← hfr]
      simp [h]
    · have hr0r : r = r0 := by
        rw [← hfr]
        simp [h]
      exact absurd (hr0r ▸ hid) h
  have h3 : ∀ (tok : Jwt) (now : Int),
      validate_refresh_token (logout db u).2 u.id tok now = false := by
    intro tok now
    unfold validate_refresh_token
    apply List.any_eq_false.mpr
    intro r hr hp
    simp only [Bool.and_eq_true] at hp
    obtain ⟨⟨⟨ha, _⟩, hc⟩, _⟩ := hp
    have hid : r.userId = u.id := by simpa using ha
    have hrev : r.isRevoked = false := by simpa using hc
    have htrue := h1 r hr hid
    rw [htrue] at hrev
    cases hrev
  refine ⟨h1, ?_, h3, ?_⟩
  · intro r hr hne
    rw [hmap]
    refine List.mem_map.mpr ⟨r, hr, ?_⟩
    simp [hne]
  · intro tok now hver
    simp [refresh_access_token, hver, h3 tok now]

/-- Concrete user for the C1 witness scenario. -/
def wUser : User :=
  ⟨"u1", "alice@example.com", "Alice", "alice", get_password_hash "pw1", "user",
    some "B1", true, 0, none⟩

/-- Concrete refresh token for the C1 witness scenario, freshly issued to
`wUser` with a long ttl. -/
def wTok : Jwt := create_refresh_token cSettings 0 "u1" (some 1000) none

/-- Concrete store for the C1 witness scenario: one user, one live refresh
record for that user. -/
def wDb : Db := ⟨[wUser], [⟨"rt-0", "u1", wTok, 1000, 0, false⟩]⟩

/-- C1 witness: after logout, the previously issued, still well-signed and
unexpired refresh token no longer validates and the refresh flow fails with
the revoked-token error. -/
theorem logout_revokes_all_witness :
    validate_refresh_token (logout wDb wUser).2 "u1" wTok 5 = false
    ∧ refresh_access_token cSettings (logout wDb wUser).2 (some wTok) 5
        = .error ⟨401, "Refresh token has been revoked"⟩ :=
  ⟨(logout_revokes_all cSettings wDb wUser).2.2.1 wTok 5,
   (logout_revokes_all cSettings wDb wUser).2.2.2 wTok 5 rfl⟩

/-- C5: a login attempt with a non-existent identifier and one with an
existing identity but a wrong secret produce the same externally observable
outcome (status and message); only the inactive-account failure is
distinguishable. -/
theorem login_failure_indistinguishable (S : Settings) (rl : RateLimiter) (ip : String)
    (db : Db) (ident1 pw1 ident2 pw2 : String) (u : User) (now : Int) (storeOk : Bool)
    (hallow : (rl.check ip now).1 = true)
    (h1 : lookup_user db ident1 = none)
    (h2 : lookup_user db ident2 = some u)
    (hbad : verify_password pw2 u.password = false) :
    (authenticateAndCreateTokens S rl ip db ident1 pw1 now storeOk).1
      = (authenticateAndCreateTokens S rl ip db ident2 pw2 now storeOk).1
    ∧ (authenticateAndCreateTokens S rl ip db ident1 pw1 now storeOk).1
      = .error ⟨401, "Incorrect username or password"⟩
    ∧ (∀ ident3 pw3 u3, lookup_user db ident3 = some u3 →
        verify_password pw3 u3.password = true → u3.isActive = false →
        (authenticateAndCreateTokens S rl ip db ident3 pw3 now storeOk).1
          = .error ⟨400, "Inactive user"⟩
        ∧ (⟨400, "Inactive user"⟩ : HTTPError) ≠ ⟨401, "Incorrect username or password"⟩) := by
  have hauth1 : authenticate_user db ident1 pw1 = none := by
    unfold authenticate_user
    rw [h1]
  have hauth2 : authenticate_user db ident2 pw2 = none := by
    unfold authenticate_user
    rw [h2]
    show (if verify_password pw2 u.password = true then some u else none) = none
    rw [hbad]
    rfl
  have hout1 : (authenticateAndCreateTokens S rl ip db ident1 pw1 now storeOk).1
      = .error ⟨401, "Incorrect username or password"⟩ := by
    simp only [authenticateAndCreateTokens, loginWithAuthResult]
    rw [hauth1, hallow]
    rfl
  have hout2 : (authenticateAndCreateTokens S rl ip db ident2 pw2 now storeOk).1
      = .error ⟨401, "Incorrect username or password"⟩ := by
    simp only [authenticateAndCreateTokens, loginWithAuthResult]
    rw [hauth2, hallow]
    rfl
  refine ⟨hout1.trans hout2.symm, hout1, ?_⟩
  intro ident3 pw3 u3 h3 hpw3 hact3
  have hauth3 : authenticate_user db ident3 pw3 = some u3 := by
    unfold authenticate_user
    rw [h3]
    show (if verify_password pw3 u3.password = true then some u3 else none) = some u3
    rw [hpw3]
    rfl
  constructor
  · have hred : authenticateAndCreateTokens S rl ip db ident3 pw3 now storeOk
        = (.error ⟨400, "Inactive user"⟩, (rl.check ip now).2, db) := by
      simp only [authenticateAndCreateTokens, loginWithAuthResult]
      rw [hauth3, hallow]
      simp [is_active, hact3]
    rw [hred]
  · intro hc
    cases hc

/-- Concrete inactive user for the C5 witness. -/
def wInactive : User :=
  ⟨"u3", "carol@example.com", "Carol", "carol", get_password_hash "pw3", "user",
    none, false, 0, none⟩

/-- Concrete store for the C5 witness: one active user and one inactive user. -/
def w5Db : Db := ⟨[wUser, wInactive], []⟩

/-- C5 witness: at concrete inputs, the not-found outcome equals the
wrong-secret outcome, and the inactive outcome is the distinguishable 400. -/
theorem login_failure_indistinguishable_witness :
    (authenticateAndCreateTokens cSettings (RateLimiter.init 10 60 0) "ip" w5Db
        "nobody" "x" 0 true).1
      = (authenticateAndCreateTokens cSettings (RateLimiter.init 10 60 0) "ip" w5Db
          "alice" "wrong" 0 true).1
    ∧ (authenticateAndCreateTokens cSettings (RateLimiter.init 10 60 0) "ip" w5Db
        "carol" "pw3" 0 true).1 = .error ⟨400, "Inactive user"⟩ :=
  ⟨(login_failure_indistinguishable cSettings (RateLimiter.init 10 60 0) "ip" w5Db
      "nobody" "x" "alice" "wrong" wUser 0 true rfl rfl rfl rfl).1,
   ((login_failure_indistinguishable cSettings (RateLimiter.init 10 60 0) "ip" w5Db
      "nobody" "x" "alice" "wrong" wUser 0 true rfl rfl rfl rfl).2.2
      "carol" "pw3" wInactive rfl rfl rfl).1⟩

/-- C6: for every possible result of the (absent) `authenticate_user`
service, the login flow leaves every `User` row unchanged (so no
failed-attempt counter is incremented and no lock-until timestamp is set by
the flow) and its only failure outcomes are the 429 rate-limit, the generic
401 invalid-credentials, and the 400 inactive signals — there is no distinct
`LOCKED` outcome. -/
theorem login_no_locked_outcome (S : Settings) (rl : RateLimiter) (ip : String)
    (db : Db) (authResult : Option User) (now : Int) (storeOk : Bool) :
    ((loginWithAuthResult S rl ip db authResult now storeOk).2.2.users = db.users)
    ∧ ∀ e, (loginWithAuthResult S rl ip db authResult now storeOk).1 = .error e →
        e = ⟨429, "Too many login attempts. Please try again later."⟩
        ∨ e = ⟨401, "Incorrect username or password"⟩
        ∨ e = ⟨400, "Inactive user"⟩ := by
  simp only [loginWithAuthResult]
  cases hcheck : (rl.check ip now).1 with
  | false =>
    exact ⟨rfl, fun e he => by cases he; left; rfl⟩
  | true =>
    cases authResult with
    | none =>
      exact ⟨rfl, fun e he => by cases he; right; left; rfl⟩
    | some user =>
      cases hact : is_active user with
      | false =>
        constructor
        · simp [hact]
        · intro e he
          simp [hact] at he
          subst he
          right
          right
          rfl
      | true =>
        cases storeOk with
        | false =>
          constructor
          · simp [hact]
          · intro e he
            simp [hact] at he
        | true =>
          constructor
          · simp [hact, store_refresh_token]
          · intro e he
            simp [hact] at he

/-- C6 witness: the theorem at a concrete input (empty store, service
returning no user): rows unchanged and the outcome is the generic 401. -/
theorem login_no_locked_outcome_witness :
    (loginWithAuthResult cSettings (RateLimiter.init 10 60 0) "ip"
        ⟨[], []⟩ none 0 true).2.2.users = ([] : List User)
    ∧ ((⟨401, "Incorrect username or password"⟩ : HTTPError)
          = ⟨429, "Too many login attempts. Please try again later."⟩
        ∨ (⟨401, "Incorrect username or password"⟩ : HTTPError)
          = ⟨401, "Incorrect username or password"⟩
        ∨ (⟨401, "Incorrect username or password"⟩ : HTTPError)
          = ⟨400, "Inactive user"⟩) :=
  ⟨(login_no_locked_outcome cSettings (RateLimiter.init 10 60 0) "ip"
      ⟨[], []⟩ none 0 true).1,
   (login_no_locked_outcome cSettings (RateLimiter.init 10 60 0) "ip"
      ⟨[], []⟩ none 0 true).2 ⟨401, "Incorrect username or password"⟩ rfl⟩

/-- C7: when authentication succeeds but persisting the refresh record
fails (the store raises and the endpoint swallows it), the login flow still
returns the same already-issued access/refresh token pair as a successful
store would, and the store is left unchanged. -/
theorem login_store_failure_best_effort (S : Settings) (rl : RateLimiter) (ip : String)
    (db : Db) (ident pw : String) (u : User) (now : Int)
    (hallow : (rl.check ip now).1 = true)
    (hfound : lookup_user db ident = some u)
    (hpw : verify_password pw u.password = true)
    (hact : u.isActive = true) :
    (authenticateAndCreateTokens S rl ip db ident pw now false).1
      = (authenticateAndCreateTokens S rl ip db ident pw now true).1
    ∧ (authenticateAndCreateTokens S rl ip db ident pw now false).1
      = .ok ⟨create_access_token S now u.id (some (S.ACCESS_TOKEN_EXPIRE_MINUTES * 60))
              (some (userTokenData u)),
            create_refresh_token S now u.id (some (S.REFRESH_TOKEN_EXPIRE_DAYS * 86400))
              (some (userTokenData u)),
            "bearer", now + S.ACCESS_TOKEN_EXPIRE_MINUTES * 60⟩
    ∧ (authenticateAndCreateTokens S rl ip db ident pw now false).2.2 = db := by
  have hauth : authenticate_user db ident pw = some u := by
    unfold authenticate_user
    rw [hfound]
    show (if verify_password pw u.password = true then some u else none) = some u
    rw [hpw]
    rfl
  have hactive : is_active u = true := hact
  refine ⟨?_, ?_, ?_⟩
  · simp only [authenticateAndCreateTokens, loginWithAuthResult]
    rw [hauth, hallow]
    simp [hactive]
  · simp only [authenticateAndCreateTokens, loginWithAuthResult]
    rw [hauth, hallow]
    simp [hactive]
  · simp only [authenticateAndCreateTokens, loginWithAuthResult]
    rw [hauth, hallow]
    simp [hactive]

/-- C7 witness: a concrete successful login with the store failing returns
the full token pair and leaves the store unchanged. -/
theorem login_store_failure_best_effort_witness :
    (authenticateAndCreateTokens cSettings (RateLimiter.init 10 60 0) "ip" w5Db
        "alice" "pw1" 0 false).1
      = (authenticateAndCreateTokens cSettings (RateLimiter.init 10 60 0) "ip" w5Db
          "alice" "pw1" 0 true).1
    ∧ (authenticateAndCreateTokens cSettings (RateLimiter.init 10 60 0) "ip" w5Db
        "alice" "pw1" 0 false).2.2 = w5Db :=
  ⟨(login_store_failure_best_effort cSettings (RateLimiter.init 10 60 0) "ip" w5Db
      "alice" "pw1" wUser 0 rfl rfl rfl rfl).1,
   (login_store_failure_best_effort cSettings (RateLimiter.init 10 60 0) "ip" w5Db
      "alice" "pw1" wUser 0 rfl rfl rfl rfl).2.2⟩

/-! ## Rate limiter lemmas -/

theorem cacheGet_single (k : String) (l : List Int) : cacheGet [(k, l)] k = l := by
  simp [cacheGet]

theorem cacheSet_single (k : String) (l v : List Int) : cacheSet [(k, l)] k v = [(k, v)] := by
  simp [cacheSet]

theorem filter_window_all (l : List Int) (now tf : Int) (h : ∀ t ∈ l, now - t ≤ tf) :
    l.filter (fun t => decide (now - t ≤ tf)) = l :=
  List.filter_eq_self.mpr (fun t ht => decide_eq_true (h t ht))

/-- `check` on an empty cache with cleanup not due: the very first call for
a key is admitted (when `max_calls` is positive) and recorded. -/
theorem check_empty (mc : Nat) (tf : Int) (lc ci : Int) (k : String) (now : Int)
    (hnc : ¬ now - lc > ci) (hmc : 0 < mc) :
    RateLimiter.check ⟨mc, tf, [], lc, ci⟩ k now
      = (true, ⟨mc, tf, [(k, [now])], lc, ci⟩) := by
  simp only [RateLimiter.check]
  rw [if_neg hnc]
  have hget : cacheGet ([] : List (String × List Int)) k = [] := rfl
  rw [hget]
  simp only [List.filter_nil, List.length_nil]
  rw [if_neg (by omega)]
  have hset : cacheSet ([] : List (String × List Int)) k ([] ++ [now]) = [(k, [now])] := rfl
  rw [hset]

/-- `check` on a single-key cache with cleanup not due, in closed form:
prune the stored list to the trailing window, then reject (writing the
pruned list back) or admit (appending `now`). -/
theorem check_single (mc : Nat) (tf : Int) (lc ci : Int) (k : String) (l : List Int)
    (now : Int) (hnc : ¬ now - lc > ci) :
    RateLimiter.check ⟨mc, tf, [(k, l)], lc, ci⟩ k now
      = (if (l.filter (fun t => decide (now - t ≤ tf))).length ≥ mc then
          (false, ⟨mc, tf, [(k, l.filter (fun t => decide (now - t ≤ tf)))], lc, ci⟩)
        else
          (true, ⟨mc, tf, [(k, l.filter (fun t => decide (now - t ≤ tf)) ++ [now])], lc, ci⟩)) := by
  simp only [RateLimiter.check]
  rw [if_neg hnc]
  rw [cacheGet_single, cacheSet_single, cacheSet_single]

/-- An in-window `check` call below the limit admits and appends `now`. -/
theorem check_single_admit (mc : Nat) (tf : Int) (lc ci : Int) (k : String) (l : List Int)
    (now : Int) (hnc : ¬ now - lc > ci) (hkeep : ∀ t ∈ l, now - t ≤ tf)
    (hlen : l.length < mc) :
    RateLimiter.check ⟨mc, tf, [(k, l)], lc, ci⟩ k now
      = (true, ⟨mc, tf, [(k, l ++ [now])], lc, ci⟩) := by
  rw [check_single mc tf lc ci k l now hnc, filter_window_all l now tf hkeep,
    if_neg (by omega)]

/-- An in-window `check` call at the limit rejects and leaves the state
unchanged (the write-back of the pruned list is the identity). -/
theorem check_single_reject (mc : Nat) (tf : Int) (lc ci : Int) (k : String) (l : List Int)
    (now : Int) (hnc : ¬ now - lc > ci) (hkeep : ∀ t ∈ l, now - t ≤ tf)
    (hlen : l.length ≥ mc) :
    RateLimiter.check ⟨mc, tf, [(k, l)], lc, ci⟩ k now
      = (false, ⟨mc, tf, [(k, l)], lc, ci⟩) := by
  rw [check_single mc tf lc ci k l now hnc, filter_window_all l now tf hkeep,
    if_pos hlen]

/-- Once the oldest stored timestamp has aged out of the window, a further
`check` call is admitted whenever the remaining timestamps are below the
limit. -/
theorem check_single_admit_old (mc : Nat) (tf : Int) (lc ci : Int) (k : String)
    (t0 : Int) (rest : List Int) (now : Int)
    (hnc : ¬ now - lc > ci) (hdrop : ¬ now - t0 ≤ tf) (hlen : rest.length < mc) :
    (RateLimiter.check ⟨mc, tf, [(k, t0 :: rest)], lc, ci⟩ k now).1 = true := by
  rw [check_single mc tf lc ci k (t0 :: rest) now hnc]
  rw [List.filter_cons_of_neg (by simpa using hdrop)]
  have hle := List.length_filter_le (fun t => decide (now - t ≤ tf)) rest
  rw [if_neg (by omega)]

/-- C4: a limiter configured `max_calls = 5`, `time_frame = 60`, starting
from the empty state: five `check` calls for one key within 60 seconds all
admit; a sixth within the same window rejects and records nothing (the state
is exactly the state after the fifth call); and a further call at least 61
seconds after the first call admits again. -/
theorem rate_limit_5_per_60 (key : String) (t1 t2 t3 t4 t5 t6 T : Int)
    (h12 : t1 ≤ t2) (h23 : t2 ≤ t3) (h34 : t3 ≤ t4) (h45 : t4 ≤ t5) (h56 : t5 ≤ t6)
    (hwin : t6 - t1 ≤ 60) (hmono : t6 ≤ T) (hT61 : t1 + 61 ≤ T) (hTcl : T - t1 ≤ 600) :
    ((RateLimiter.init 5 60 t1).runChecks key [t1, t2, t3, t4, t5, t6]).2
        = [true, true, true, true, true, false]
    ∧ ((RateLimiter.init 5 60 t1).runChecks key [t1, t2, t3, t4, t5, t6]).1
        = ((RateLimiter.init 5 60 t1).runChecks key [t1, t2, t3, t4, t5]).1
    ∧ ((RateLimiter.init 5 60 t1).runChecks key [t1, t2, t3, t4, t5, t6, T]).2
        = [true, true, true, true, true, false, true] := by
  have hc1 : RateLimiter.check ⟨5, 60, [], t1, 600⟩ key t1
      = (true, ⟨5, 60, [(key, [t1])], t1, 600⟩) :=
    check_empty 5 60 t1 600 key t1 (by omega) (by omega)
  have hc2 : RateLimiter.check ⟨5, 60, [(key, [t1])], t1, 600⟩ key t2
      = (true, ⟨5, 60, [(key, [t1, t2])], t1, 600⟩) :=
    check_single_admit 5 60 t1 600 key [t1] t2 (by omega)
      (by
        intro t ht
        simp only [List.mem_singleton] at ht
        subst ht
        omega)
      (by simp)
  have hc3 : RateLimiter.check ⟨5, 60, [(key, [t1, t2])], t1, 600⟩ key t3
      = (true, ⟨5, 60, [(key, [t1, t2, t3])], t1, 600⟩) :=
    check_single_admit 5 60 t1 600 key [t1, t2] t3 (by omega)
      (by
        intro t ht
        simp only [List.mem_cons, List.not_mem_nil, or_false] at ht
        rcases ht with rfl | rfl <;> omega)
      (by simp)
  have hc4 : RateLimiter.check ⟨5, 60, [(key, [t1, t2, t3])], t1, 600⟩ key t4
      = (true, ⟨5, 60, [(key, [t1, t2, t3, t4])], t1, 600⟩) :=
    check_single_admit 5 60 t1 600 key [t1, t2, t3] t4 (by omega)
      (by
        intro t ht
        simp only [List.mem_cons, List.not_mem_nil, or_false] at ht
        rcases ht with rfl | rfl | rfl <;> omega)
      (by simp)
  have hc5 : RateLimiter.check ⟨5, 60, [(key, [t1, t2, t3, t4])], t1, 600⟩ key t5
      = (true, ⟨5, 60, [(key, [t1, t2, t3, t4, t5])], t1, 600⟩) :=
    check_single_admit 5 60 t1 600 key [t1, t2, t3, t4] t5 (by omega)
      (by
        intro t ht
        simp only [List.mem_cons, List.not_mem_nil, or_false] at ht
        rcases ht with rfl | rfl | rfl | rfl <;> omega)
      (by simp)
  have hc6 : RateLimiter.check ⟨5, 60, [(key, [t1, t2, t3, t4, t5])], t1, 600⟩ key t6
      = (false, ⟨5, 60, [(key, [t1, t2, t3, t4, t5])], t1, 600⟩) :=
    check_single_reject 5 60 t1 600 key [t1, t2, t3, t4, t5] t6 (by omega)
      (by
        intro t ht
        simp only [List.mem_cons, List.not_mem_nil, or_false] at ht
        rcases ht with rfl | rfl | rfl | rfl | rfl <;> omega)
      (by simp)
  have hc7 : (RateLimiter.check ⟨5, 60, [(key, [t1, t2, t3, t4, t5])], t1, 600⟩ key T).1
      = true :=
    check_single_admit_old 5 60 t1 600 key t1 [t2, t3, t4, t5] T (by omega)
      (by omega) (by simp)
  refine ⟨?_, ?_, ?_⟩
  · simp only [RateLimiter.runChecks, List.foldl_cons, List.foldl_nil, RateLimiter.init,
      hc1, hc2, hc3, hc4, hc5, hc6, List.nil_append, List.cons_append, List.append_nil]
  · simp only [RateLimiter.runChecks, List.foldl_cons, List.foldl_nil, RateLimiter.init,
      hc1, hc2, hc3, hc4, hc5, hc6]
  · simp only [RateLimiter.runChecks, List.foldl_cons, List.foldl_nil, RateLimiter.init,
      hc1, hc2, hc3, hc4, hc5, hc6, hc7, List.nil_append, List.cons_append, List.append_nil]

/-- C4 witness: the window scenario at concrete times 0, 10, 20, 30, 40,
50 and a final call at 61 seconds. -/
theorem rate_limit_5_per_60_witness :
    ((RateLimiter.init 5 60 0).runChecks "ip" [0, 10, 20, 30, 40, 50]).2
        = [true, true, true, true, true, false]
    ∧ ((RateLimiter.init 5 60 0).runChecks "ip" [0, 10, 20, 30, 40, 50, 61]).2
        = [true, true, true, true, true, false, true] :=
  ⟨(rate_limit_5_per_60 "ip" 0 10 20 30 40 50 61 (by omega) (by omega) (by omega)
      (by omega) (by omega) (by omega) (by omega) (by omega) (by omega)).1,
   (rate_limit_5_per_60 "ip" 0 10 20 30 40 50 61 (by omega) (by omega) (by omega)
      (by omega) (by omega) (by omega) (by omega) (by omega) (by omega)).2.2⟩

end LcOpd
